import Mathlib

/-
  Verification development for the crypto-alert repository.

  Shallow embedding of the alert decision engine (internal/core, the
  DecisionEngine with price / DeFi / prediction-market rules) and of the
  notification-service delivery worker (cmd/notification-service/main.go).

  Conventions:
  * Go float64 values (prices, thresholds) are modelled as rationals (ℚ);
    the comparator logic uses only ordering, addition and subtraction.
  * Go time.Time / time.Duration are modelled as Int nanoseconds, matching
    time.Duration's unit; time.Hour = 3600e9 ns, time.Second = 1e9 ns.
  * time.Now() inside evaluateLocked becomes an explicit `now` parameter.
  * Display-only fields (rendered message strings, Sprintf formatting,
    Morpho/Aave display names) are omitted: they do not affect control flow.
-/

namespace CryptoAlert

/-- time.Second in nanoseconds (Go time.Duration units). -/
def nanosPerSecond : Int := 1000000000

/-- time.Hour in nanoseconds (Go time.Duration units). -/
def nanosPerHour : Int := 3600 * nanosPerSecond

/-- Direction indicates the comparison operator for price threshold
    (internal/core: ">=", ">", "=", "<=", "<"). -/
inductive Direction where
  | geq
  | gtd
  | eqd
  | leq
  | ltd
deriving DecidableEq, Repr

/-- FrequencyUnit: DAY, HOUR, ONCE, NEVER (internal/core). -/
inductive FrequencyUnit where
  | day
  | hour
  | once
  | never
deriving DecidableEq, Repr

/-- Frequency configuration for an alert rule (internal/core Frequency). -/
structure Frequency where
  number : Int
  unit : FrequencyUnit
deriving DecidableEq, Repr

/-- AlertRule (internal/core): a price alert rule. `id` is the MySQL row ID
    (0 if not persisted); `lastTriggered` is `nil` ↦ `none`. -/
structure AlertRule where
  id : Int
  symbol : String
  priceFeedID : String
  threshold : ℚ
  direction : Direction
  enabled : Bool
  recipientEmail : String
  lastTriggered : Option Int
  frequency : Option Frequency
deriving DecidableEq, Repr

/-- PriceData (internal/data/price): the fields read by evaluateLocked. -/
structure PriceData where
  symbol : String
  price : ℚ
deriving DecidableEq, Repr

/-- DeFiAlertRule (internal/core): the fields read by evaluateDeFiLocked and
    ReplaceRules (display-only string fields omitted). -/
structure DeFiAlertRule where
  id : Int
  protocol : String
  category : String
  version : String
  chainID : String
  marketTokenContract : String
  field : String
  threshold : ℚ
  direction : Direction
  enabled : Bool
  recipientEmail : String
  lastTriggered : Option Int
  frequency : Option Frequency
deriving DecidableEq, Repr

/-- PredictMarketAlertRule (internal/core): the fields read by
    evaluatePredictMarketLocked and ReplaceRules (display context omitted). -/
structure PredictMarketAlertRule where
  id : Int
  predictMarket : String
  tokenID : String
  field : String
  threshold : ℚ
  direction : Direction
  enabled : Bool
  recipientEmail : String
  lastTriggered : Option Int
  frequency : Option Frequency
deriving DecidableEq, Repr

/-- The `switch rule.Direction` block shared (textually repeated) by
    evaluateLocked, evaluateDeFiLocked and evaluatePredictMarketLocked.
    Each call site hard-codes its epsilon: 0.01 for price and DeFi,
    0.0001 for prediction-market midpoints.  The `=` case is the source's
    `value >= threshold-epsilon && value <= threshold+epsilon`. -/
def directionBreach (eps : ℚ) (d : Direction) (value threshold : ℚ) : Bool :=
  match d with
  | .geq => decide (value ≥ threshold)
  | .gtd => decide (value > threshold)
  | .eqd => decide (value ≥ threshold - eps) && decide (value ≤ threshold + eps)
  | .leq => decide (value ≤ threshold)
  | .ltd => decide (value < threshold)

/-- Epsilon used by evaluateLocked and evaluateDeFiLocked (`epsilon := 0.01`). -/
def priceEpsilon : ℚ := 1 / 100

/-- Epsilon used by evaluatePredictMarketLocked (`epsilon := 0.0001`). -/
def predictEpsilon : ℚ := 1 / 10000

/-- Tail of a fired iteration in evaluateLocked: append the decision and set
    `rule.LastTriggered = &now`.  The Bool is "a decision was appended". -/
def fireAlertRule (now : Int) (rule : AlertRule) : AlertRule × Bool :=
  ({ rule with lastTriggered := some now }, true)

/-- One iteration of the `for _, rule := range e.rules` loop of
    DecisionEngine.evaluateLocked, for a single rule: returns the rule's
    post-iteration state and whether a decision was appended for it. -/
def evaluateRuleStep (now : Int) (priceData : PriceData) (rule : AlertRule) :
    AlertRule × Bool :=
  if !rule.enabled then (rule, false)
  else if rule.symbol ≠ priceData.symbol then (rule, false)
  else
    let shouldAlert := directionBreach priceEpsilon rule.direction priceData.price rule.threshold
    if shouldAlert then
      match rule.frequency with
      | some freq =>
        match freq.unit with
        | .once =>
          match rule.lastTriggered with
          | some _ => ({ rule with enabled := false }, false)
          | none => fireAlertRule now rule
        | .never => (rule, false)
        | .day =>
          match rule.lastTriggered with
          | some t =>
            if now - t < freq.number * 24 * nanosPerHour then (rule, false)
            else fireAlertRule now rule
          | none => fireAlertRule now rule
        | .hour =>
          match rule.lastTriggered with
          | some t =>
            if now - t < freq.number * nanosPerHour then (rule, false)
            else fireAlertRule now rule
          | none => fireAlertRule now rule
      | none =>
        match rule.lastTriggered with
        | some t =>
          if now - t < nanosPerHour then (rule, false)
          else fireAlertRule now rule
        | none => fireAlertRule now rule
    else (rule, false)

/-- DecisionEngine.evaluateLocked over the rule list: returns the
    post-evaluation rule list and the (post-fire) rules a decision was
    appended for, in iteration order. -/
def evaluateLocked (now : Int) (priceData : PriceData) :
    List AlertRule → List AlertRule × List AlertRule
  | [] => ([], [])
  | r :: rs =>
    let s := evaluateRuleStep now priceData r
    let rest := evaluateLocked now priceData rs
    (s.1 :: rest.1, if s.2 then s.1 :: rest.2 else rest.2)

/-- Tail of a fired iteration in evaluatePredictMarketLocked. -/
def firePredictRule (now : Int) (rule : PredictMarketAlertRule) :
    PredictMarketAlertRule × Bool :=
  ({ rule with lastTriggered := some now }, true)

/-- One iteration of the rule loop of
    DecisionEngine.evaluatePredictMarketLocked, for a single rule. -/
def evaluatePredictRuleStep (now : Int) (tokenID : String) (midpoint : ℚ)
    (rule : PredictMarketAlertRule) : PredictMarketAlertRule × Bool :=
  if !rule.enabled then (rule, false)
  else if rule.tokenID ≠ tokenID then (rule, false)
  else
    let shouldAlert := directionBreach predictEpsilon rule.direction midpoint rule.threshold
    if shouldAlert then
      match rule.frequency with
      | some freq =>
        match freq.unit with
        | .once =>
          match rule.lastTriggered with
          | some _ => ({ rule with enabled := false }, false)
          | none => firePredictRule now rule
        | .never => (rule, false)
        | .day =>
          match rule.lastTriggered with
          | some t =>
            if now - t < freq.number * 24 * nanosPerHour then (rule, false)
            else firePredictRule now rule
          | none => firePredictRule now rule
        | .hour =>
          match rule.lastTriggered with
          | some t =>
            if now - t < freq.number * nanosPerHour then (rule, false)
            else firePredictRule now rule
          | none => firePredictRule now rule
      | none =>
        match rule.lastTriggered with
        | some t =>
          if now - t < nanosPerHour then (rule, false)
          else firePredictRule now rule
        | none => firePredictRule now rule
    else (rule, false)

/-- Tail of a fired iteration in evaluateDeFiLocked. -/
def fireDeFiRule (now : Int) (rule : DeFiAlertRule) : DeFiAlertRule × Bool :=
  ({ rule with lastTriggered := some now }, true)

/-- One iteration of the rule loop of DecisionEngine.evaluateDeFiLocked,
    for a single rule.  Match is by chain ID, token address and field. -/
def evaluateDeFiRuleStep (now : Int) (chainID tokenAddress field : String)
    (currentValue : ℚ) (rule : DeFiAlertRule) : DeFiAlertRule × Bool :=
  if !rule.enabled then (rule, false)
  else if rule.chainID ≠ chainID ∨ rule.marketTokenContract ≠ tokenAddress ∨
      rule.field ≠ field then (rule, false)
  else
    let shouldAlert := directionBreach priceEpsilon rule.direction currentValue rule.threshold
    if shouldAlert then
      match rule.frequency with
      | some freq =>
        match freq.unit with
        | .once =>
          match rule.lastTriggered with
          | some _ => ({ rule with enabled := false }, false)
          | none => fireDeFiRule now rule
        | .never => (rule, false)
        | .day =>
          match rule.lastTriggered with
          | some t =>
            if now - t < freq.number * 24 * nanosPerHour then (rule, false)
            else fireDeFiRule now rule
          | none => fireDeFiRule now rule
        | .hour =>
          match rule.lastTriggered with
          | some t =>
            if now - t < freq.number * nanosPerHour then (rule, false)
            else fireDeFiRule now rule
          | none => fireDeFiRule now rule
      | none =>
        match rule.lastTriggered with
        | some t =>
          if now - t < nanosPerHour then (rule, false)
          else fireDeFiRule now rule
        | none => fireDeFiRule now rule
    else (rule, false)

/-- DecisionEngine: the three live rule sets (the mutex is not modelled;
    all modelled operations run under it). -/
structure DecisionEngine where
  rules : List AlertRule
  defiRules : List DeFiAlertRule
  predictMarketRules : List PredictMarketAlertRule
deriving DecidableEq, Repr

/-- The `oldPrice` map of ReplaceRules: built by inserting every old rule
    with a nonzero ID keyed by ID; a Go map insert overwrites, so the last
    old rule with a given ID wins — hence the recursion prefers the tail. -/
def oldPriceById : List AlertRule → Int → Option AlertRule
  | [], _ => none
  | r :: rs, i =>
    match oldPriceById rs i with
    | some o => some o
    | none => if r.id ≠ 0 ∧ r.id = i then some r else none

/-- The `oldDefi` map of ReplaceRules (same construction). -/
def oldDefiById : List DeFiAlertRule → Int → Option DeFiAlertRule
  | [], _ => none
  | r :: rs, i =>
    match oldDefiById rs i with
    | some o => some o
    | none => if r.id ≠ 0 ∧ r.id = i then some r else none

/-- The `oldPredict` map of ReplaceRules (same construction). -/
def oldPredictById : List PredictMarketAlertRule → Int → Option PredictMarketAlertRule
  | [], _ => none
  | r :: rs, i =>
    match oldPredictById rs i with
    | some o => some o
    | none => if r.id ≠ 0 ∧ r.id = i then some r else none

/-- ReplaceRules carry-forward loop for price rules: for every new rule
    whose ID is found in the old map, copy LastTriggered forward. -/
def carryForwardPrice (old fresh : List AlertRule) : List AlertRule :=
  fresh.map fun r =>
    match oldPriceById old r.id with
    | some o => { r with lastTriggered := o.lastTriggered }
    | none => r

/-- ReplaceRules carry-forward loop for DeFi rules. -/
def carryForwardDefi (old fresh : List DeFiAlertRule) : List DeFiAlertRule :=
  fresh.map fun r =>
    match oldDefiById old r.id with
    | some o => { r with lastTriggered := o.lastTriggered }
    | none => r

/-- ReplaceRules carry-forward loop for prediction-market rules. -/
def carryForwardPredict (old fresh : List PredictMarketAlertRule) :
    List PredictMarketAlertRule :=
  fresh.map fun r =>
    match oldPredictById old r.id with
    | some o => { r with lastTriggered := o.lastTriggered }
    | none => r

/-- DecisionEngine.ReplaceRules: carry LastTriggered forward by ID for each
    kind, then swap the entire live rule sets. -/
def replaceRules (e : DecisionEngine) (price : List AlertRule)
    (defi : List DeFiAlertRule) (predict : List PredictMarketAlertRule) :
    DecisionEngine :=
  { rules := carryForwardPrice e.rules price
    defiRules := carryForwardDefi e.defiRules defi
    predictMarketRules := carryForwardPredict e.predictMarketRules predict }

/- ------------------------------------------------------------------
   Notification service (cmd/notification-service/main.go).
   External effects (broker fetch, JSON decode, email / Telegram sends)
   are modelled as oracle inputs; the embedding captures the control flow
   that decides commits, handler errors and backoff.
   ------------------------------------------------------------------ -/

/-- TokenAlertEvent: the envelope fields consulted by the consume step's
    control flow (send targets). -/
structure TokenAlertEvent where
  symbol : String
  recipientEmail : String
  telegramChatID : String
deriving DecidableEq, Repr

/-- Result of one execution of the handler closure passed to
    consumeWithBackoff by consumeTokenAlerts. -/
structure ConsumeStepResult where
  committed : Bool
  handlerErr : Bool
deriving DecidableEq, Repr

/-- The handler closure of consumeTokenAlerts, as a function of the
    external outcomes for one iteration:
    * `fetched = none`            — r.FetchMessage returned an error:
                                    the handler returns that error, nothing
                                    is committed;
    * `fetched = some none`       — a message was fetched but json.Unmarshal
                                    failed: the handler logs, commits the
                                    message and returns nil;
    * `fetched = some (some ev)`  — fetched and decoded: sends are attempted
                                    (their success `emailOk` / `tgOk` only
                                    affects logging), then the message is
                                    committed and nil returned. -/
def consumeTokenStep (fetched : Option (Option TokenAlertEvent))
    (_emailOk _tgOk _tgEnabled : Bool) : ConsumeStepResult :=
  match fetched with
  | none => { committed := false, handlerErr := true }
  | some none => { committed := true, handlerErr := false }
  | some (some _ev) => { committed := true, handlerErr := false }

/-- backoffMin of consumeWithBackoff (2 * time.Second). -/
def backoffMin : Int := 2 * nanosPerSecond

/-- backoffMax of consumeWithBackoff (60 * time.Second). -/
def backoffMax : Int := 60 * nanosPerSecond

/-- The backoff update of consumeWithBackoff: `backoff *= 2;
    if backoff > backoffMax { backoff = backoffMax }`. -/
def nextConsumeBackoff (b : Int) : Int :=
  let b2 := b * 2
  if b2 > backoffMax then backoffMax else b2

/-- consumeWithBackoff's reaction to one handler result: on a handler
    error, close and recreate the reader after waiting `b` (first Bool
    component true) and advance the backoff; on success, keep the reader
    and reset the backoff to backoffMin. -/
def consumeLoopReact (b : Int) (handlerErr : Bool) : Bool × Int :=
  if handlerErr then (true, nextConsumeBackoff b) else (false, backoffMin)

/-- One partition entry of an OffsetFetch response: whether p.Error was
    non-nil, and p.CommittedOffset (negative when no commit exists). -/
structure OffsetFetchPartition where
  hasError : Bool
  committedOffset : Int
deriving DecidableEq, Repr

/-- One loop iteration of initConsumerGroupOffsets, for one
    (consumer-group, topic) spec, as a function of the broker outcomes:
    * `fetchResp = none`          — client.OffsetFetch errored: log, skip;
    * `fetchResp = some none`     — response carried no partition entry: skip;
    * `fetchResp = some (some p)` — partition entry `p` returned;
    * `earliest = none`           — DialLeader / ReadOffsets errored;
    * `earliest = some first`     — the partition's earliest offset is `first`.
    Returns `some o` iff an OffsetCommit request with offset `o` is issued. -/
def initOffsetStep (fetchResp : Option (Option OffsetFetchPartition))
    (earliest : Option Int) : Option Int :=
  match fetchResp with
  | none => none
  | some none => none
  | some (some p) =>
    if p.hasError ∨ p.committedOffset ≥ 0 then none
    else
      match earliest with
      | none => none
      | some first => some first

/-- The wait durations of waitForGroupCoordinator:
    `backoff := 1 * time.Second`, and after each wait
    `if backoff < 30*time.Second { backoff *= 2 }`.
    `coordinatorBackoff n` is the duration of the n-th wait (0-indexed). -/
def coordinatorBackoff : Nat → Int
  | 0 => nanosPerSecond
  | n + 1 =>
    if coordinatorBackoff n < 30 * nanosPerSecond then coordinatorBackoff n * 2
    else coordinatorBackoff n

/- ------------------------------------------------------------------
   Spec-side comparator (refinement target for C1).
   ------------------------------------------------------------------ -/

/-- The comparator as the spec words it: >=, >, <=, < with their usual
    meaning, and = holding iff |value - threshold| <= epsilon.  Written
    from the spec, to be compared with the source's directionBreach. -/
def specComparatorHolds (d : Direction) (eps value threshold : ℚ) : Prop :=
  match d with
  | .geq => value ≥ threshold
  | .gtd => value > threshold
  | .eqd => |value - threshold| ≤ eps
  | .leq => value ≤ threshold
  | .ltd => value < threshold

instance (d : Direction) (eps value threshold : ℚ) :
    Decidable (specComparatorHolds d eps value threshold) := by
  unfold specComparatorHolds
  cases d <;> infer_instance

/-- Bridge: the source's comparator switch agrees with the spec's wording
    of the comparator at every epsilon. -/
theorem directionBreach_iff_spec (d : Direction) (eps value threshold : ℚ) :
    directionBreach eps d value threshold = true ↔
      specComparatorHolds d eps value threshold := by
  cases d with
  | eqd =>
    simp only [directionBreach, specComparatorHolds, Bool.and_eq_true,
      decide_eq_true_eq, abs_sub_le_iff]
    constructor
    · intro h
      exact ⟨by linarith [h.1, h.2], by linarith [h.1, h.2]⟩
    · intro h
      exact ⟨by linarith [h.1, h.2], by linarith [h.1, h.2]⟩
  | geq => simp [directionBreach, specComparatorHolds]
  | gtd => simp [directionBreach, specComparatorHolds]
  | leq => simp [directionBreach, specComparatorHolds]
  | ltd => simp [directionBreach, specComparatorHolds]

/- ------------------------------------------------------------------
   C1 — comparator correctness of evaluate.
   ------------------------------------------------------------------ -/

/-- Concrete rule for the C1 counterexample: enabled, matching,
    lastTriggered nil, frequency unit NEVER. -/
def c1NeverRule : AlertRule :=
  { id := 1, symbol := "BTC/USD", priceFeedID := "", threshold := 1,
    direction := .geq, enabled := true, recipientEmail := "",
    lastTriggered := none, frequency := some { number := 0, unit := .never } }

/-- Concrete observation for the C1 counterexample. -/
def c1Price : PriceData := { symbol := "BTC/USD", price := 2 }

/-- C1 (counterexample): the claim "for every enabled rule with matching key
    and nil lastTriggered, evaluate produces a decision iff the comparator
    holds" fails at a rule whose frequency unit is NEVER: here the rule is
    enabled, the key matches, lastTriggered is nil and the comparator holds
    (2 >= 1), yet evaluate appends no decision. -/
theorem c1_never_counterexample :
    c1NeverRule.enabled = true ∧
    c1NeverRule.symbol = c1Price.symbol ∧
    c1NeverRule.lastTriggered = none ∧
    specComparatorHolds c1NeverRule.direction priceEpsilon c1Price.price
      c1NeverRule.threshold ∧
    (evaluateRuleStep 0 c1Price c1NeverRule).2 = false := by
  refine ⟨rfl, rfl, rfl, ?_, by decide⟩
  norm_num [specComparatorHolds, c1NeverRule, c1Price, priceEpsilon]

/-- C1 (amended): for every enabled rule whose match key equals the observed
    key, whose lastTriggered is nil, and whose frequency unit is not NEVER,
    evaluate produces a decision iff the comparator holds between the
    observed value and the threshold (>=, >, <=, < usual meaning; = iff
    |value - threshold| <= epsilon), with epsilon = 0.01 for price rules and
    epsilon = 0.0001 for prediction-market midpoint rules. -/
theorem c1_amended :
    (∀ (now : Int) (pd : PriceData) (rule : AlertRule),
      rule.enabled = true → rule.symbol = pd.symbol →
      rule.lastTriggered = none →
      (∀ f, rule.frequency = some f → f.unit ≠ .never) →
      ((evaluateRuleStep now pd rule).2 = true ↔
        specComparatorHolds rule.direction priceEpsilon pd.price rule.threshold)) ∧
    (∀ (now : Int) (tokenID : String) (midpoint : ℚ)
        (rule : PredictMarketAlertRule),
      rule.enabled = true → rule.tokenID = tokenID →
      rule.lastTriggered = none →
      (∀ f, rule.frequency = some f → f.unit ≠ .never) →
      ((evaluatePredictRuleStep now tokenID midpoint rule).2 = true ↔
        specComparatorHolds rule.direction predictEpsilon midpoint rule.threshold)) := by
  constructor
  · intro now pd rule hen hsym hlt hnn
    rw [← directionBreach_iff_spec]
    cases hbr : directionBreach priceEpsilon rule.direction pd.price rule.threshold with
    | false => simp [evaluateRuleStep, hen, hsym, hbr]
    | true =>
      rcases hf : rule.frequency with _ | f
      · simp [evaluateRuleStep, hen, hsym, hbr, hf, hlt, fireAlertRule]
      · obtain ⟨num, u⟩ := f
        cases u with
        | never => exact absurd rfl (hnn _ hf)
        | once => simp [evaluateRuleStep, hen, hsym, hbr, hf, hlt, fireAlertRule]
        | day => simp [evaluateRuleStep, hen, hsym, hbr, hf, hlt, fireAlertRule]
        | hour => simp [evaluateRuleStep, hen, hsym, hbr, hf, hlt, fireAlertRule]
  · intro now tokenID midpoint rule hen hsym hlt hnn
    rw [← directionBreach_iff_spec]
    cases hbr : directionBreach predictEpsilon rule.direction midpoint rule.threshold with
    | false => simp [evaluatePredictRuleStep, hen, hsym, hbr]
    | true =>
      rcases hf : rule.frequency with _ | f
      · simp [evaluatePredictRuleStep, hen, hsym, hbr, hf, hlt, firePredictRule]
      · obtain ⟨num, u⟩ := f
        cases u with
        | never => exact absurd rfl (hnn _ hf)
        | once => simp [evaluatePredictRuleStep, hen, hsym, hbr, hf, hlt, firePredictRule]
        | day => simp [evaluatePredictRuleStep, hen, hsym, hbr, hf, hlt, firePredictRule]
        | hour => simp [evaluatePredictRuleStep, hen, hsym, hbr, hf, hlt, firePredictRule]

/-- Concrete equality-direction rule for the C1 witness (threshold 1.0). -/
def c1WitnessRule : AlertRule :=
  { id := 1, symbol := "BTC/USD", priceFeedID := "", threshold := 1,
    direction := .eqd, enabled := true, recipientEmail := "",
    lastTriggered := none, frequency := none }

/-- Observation at 1.005 (alerts under = with epsilon 0.01). -/
def c1PriceNear : PriceData := { symbol := "BTC/USD", price := 201 / 200 }

/-- Observation at 1.02 (does not alert under = with epsilon 0.01). -/
def c1PriceFar : PriceData := { symbol := "BTC/USD", price := 51 / 50 }

/-- Concrete prediction-market rule for the C1 witness. -/
def c1PredictRule : PredictMarketAlertRule :=
  { id := 1, predictMarket := "polymarket", tokenID := "tok",
    field := "MIDPOINT", threshold := 1 / 2, direction := .eqd,
    enabled := true, recipientEmail := "", lastTriggered := none,
    frequency := none }

/-- C1 witness: the amended theorem at the spec's worked example —
    threshold 1.0, value 1.005 alerts under `=` with epsilon 0.01,
    value 1.02 does not; and a midpoint rule alerts at its threshold. -/
theorem c1_amended_witness :
    (evaluateRuleStep 0 c1PriceNear c1WitnessRule).2 = true ∧
    (evaluateRuleStep 0 c1PriceFar c1WitnessRule).2 = false ∧
    (evaluatePredictRuleStep 0 "tok" (1 / 2) c1PredictRule).2 = true := by
  have h1 := c1_amended.1 0 c1PriceNear c1WitnessRule rfl rfl rfl
    (fun f hf => nomatch hf)
  have h2 := c1_amended.1 0 c1PriceFar c1WitnessRule rfl rfl rfl
    (fun f hf => nomatch hf)
  have h3 := c1_amended.2 0 "tok" (1 / 2) c1PredictRule rfl rfl rfl
    (fun f hf => nomatch hf)
  refine ⟨h1.mpr ?_, ?_, h3.mpr ?_⟩
  · norm_num [specComparatorHolds, c1WitnessRule, c1PriceNear, priceEpsilon,
      abs_le]
  · cases hb : (evaluateRuleStep 0 c1PriceFar c1WitnessRule).2 with
    | false => rfl
    | true =>
      refine absurd (h2.mp hb) ?_
      norm_num [specComparatorHolds, c1WitnessRule, c1PriceFar, priceEpsilon,
        abs_le]
  · norm_num [specComparatorHolds, c1PredictRule, predictEpsilon, abs_le]

/- ------------------------------------------------------------------
   C3 — ONCE self-disable timing.
   ------------------------------------------------------------------ -/

/-- Fresh ONCE rule (never triggered) for the C3 counterexample. -/
def c3Rule : AlertRule :=
  { id := 1, symbol := "BTC/USD", priceFeedID := "", threshold := 1,
    direction := .geq, enabled := true, recipientEmail := "",
    lastTriggered := none, frequency := some { number := 0, unit := .once } }

/-- Observation breaching c3Rule. -/
def c3Price : PriceData := { symbol := "BTC/USD", price := 2 }

/-- C3 (counterexample): the first successful trigger of a ONCE rule appends
    a decision and sets lastTriggered, but leaves enabled = true — the rule
    does NOT self-disable immediately after its first trigger (disabling
    happens only on the next breaching evaluation). -/
theorem c3_once_counterexample :
    (evaluateRuleStep 0 c3Price c3Rule).2 = true ∧
    (evaluateRuleStep 0 c3Price c3Rule).1.enabled = true ∧
    (evaluateRuleStep 0 c3Price c3Rule).1.lastTriggered = some 0 := by
  decide

/-- C3 (amended): a ONCE rule that has already triggered (lastTriggered set)
    never produces another decision, however large the breach; its enabled
    flag observably becomes false on the next breaching evaluation of the
    rule — lazily, not immediately at trigger time. -/
theorem c3_amended (now t : Int) (pd : PriceData) (rule : AlertRule)
    (f : Frequency) (hf : rule.frequency = some f) (hu : f.unit = .once)
    (hl : rule.lastTriggered = some t) :
    (evaluateRuleStep now pd rule).2 = false ∧
    (rule.enabled = true → rule.symbol = pd.symbol →
      directionBreach priceEpsilon rule.direction pd.price rule.threshold = true →
      (evaluateRuleStep now pd rule).1.enabled = false) := by
  constructor
  · cases hen : rule.enabled with
    | false => simp [evaluateRuleStep, hen]
    | true =>
      by_cases hsym : rule.symbol = pd.symbol
      · cases hbr : directionBreach priceEpsilon rule.direction pd.price rule.threshold with
        | false => simp [evaluateRuleStep, hen, hsym, hbr]
        | true => simp [evaluateRuleStep, hen, hsym, hbr, hf, hu, hl]
      · simp [evaluateRuleStep, hen, hsym]
  · intro hen hsym hbr
    simp [evaluateRuleStep, hen, hsym, hbr, hf, hu, hl]

/-- Already-triggered ONCE rule for the C3 witness. -/
def c3TriggeredRule : AlertRule :=
  { id := 1, symbol := "BTC/USD", priceFeedID := "", threshold := 1,
    direction := .geq, enabled := true, recipientEmail := "",
    lastTriggered := some 0, frequency := some { number := 0, unit := .once } }

/-- C3 witness: a second, much larger breach at a triggered ONCE rule yields
    no decision, and the evaluation turns enabled off. -/
theorem c3_amended_witness :
    (evaluateRuleStep 5 c3Price c3TriggeredRule).2 = false ∧
    (evaluateRuleStep 5 c3Price c3TriggeredRule).1.enabled = false := by
  have h := c3_amended 5 0 c3Price c3TriggeredRule
    { number := 0, unit := .once } rfl rfl rfl
  exact ⟨h.1, h.2 rfl rfl (by decide)⟩

/- ------------------------------------------------------------------
   C4 — default (nil-frequency) 1-hour suppression.
   ------------------------------------------------------------------ -/

/-- C4: for a rule with no frequency block that last fired at t0, a later
    evaluation strictly before t0 + 1h yields no decision and leaves the
    rule (in particular lastTriggered = t0) unchanged; a breaching
    evaluation at or after t0 + 1h yields a decision and advances
    lastTriggered to now. -/
theorem c4_default_suppression (now t0 : Int) (pd : PriceData)
    (rule : AlertRule) (hf : rule.frequency = none)
    (hl : rule.lastTriggered = some t0) :
    (now - t0 < nanosPerHour →
      (evaluateRuleStep now pd rule).2 = false ∧
      (evaluateRuleStep now pd rule).1 = rule) ∧
    (nanosPerHour ≤ now - t0 → rule.enabled = true →
      rule.symbol = pd.symbol →
      directionBreach priceEpsilon rule.direction pd.price rule.threshold = true →
      (evaluateRuleStep now pd rule).2 = true ∧
      (evaluateRuleStep now pd rule).1.lastTriggered = some now) := by
  constructor
  · intro hlt
    cases hen : rule.enabled with
    | false => simp [evaluateRuleStep, hen]
    | true =>
      by_cases hsym : rule.symbol = pd.symbol
      · cases hbr : directionBreach priceEpsilon rule.direction pd.price rule.threshold with
        | false => simp [evaluateRuleStep, hen, hsym, hbr]
        | true => simp [evaluateRuleStep, hen, hsym, hbr, hf, hl, hlt]
      · simp [evaluateRuleStep, hen, hsym]
  · intro hge hen hsym hbr
    have hnl : ¬(now - t0 < nanosPerHour) := not_lt.mpr hge
    simp [evaluateRuleStep, hen, hsym, hbr, hf, hl, hnl, fireAlertRule]

/-- Rule with default frequency, fired at t0 = 0, for the C4 witness. -/
def c4Rule : AlertRule :=
  { id := 1, symbol := "BTC/USD", priceFeedID := "", threshold := 1,
    direction := .geq, enabled := true, recipientEmail := "",
    lastTriggered := some 0, frequency := none }

/-- C4 witness: one nanosecond after t0 the breach is suppressed and the
    rule unchanged; exactly one hour after t0 a fresh breach fires. -/
theorem c4_witness :
    (evaluateRuleStep 1 c1Price c4Rule).2 = false ∧
    (evaluateRuleStep 1 c1Price c4Rule).1 = c4Rule ∧
    (evaluateRuleStep nanosPerHour c1Price c4Rule).2 = true := by
  have h1 := c4_default_suppression 1 0 c1Price c4Rule rfl rfl
  have h2 := c4_default_suppression nanosPerHour 0 c1Price c4Rule rfl rfl
  exact ⟨(h1.1 (by decide)).1, (h1.1 (by decide)).2,
    (h2.2 (by decide) rfl rfl (by decide)).1⟩

/- ------------------------------------------------------------------
   C5 — NEVER always suppresses and changes nothing.
   ------------------------------------------------------------------ -/

/-- C5: an enabled, matching, breaching rule whose frequency unit is NEVER
    never produces a decision, at any evaluation time, and the evaluation
    leaves the rule (lastTriggered, enabled, everything) unchanged. -/
theorem c5_never_suppression (now : Int) (pd : PriceData) (rule : AlertRule)
    (f : Frequency) (hf : rule.frequency = some f) (hu : f.unit = .never)
    (hen : rule.enabled = true) (hsym : rule.symbol = pd.symbol)
    (hbr : directionBreach priceEpsilon rule.direction pd.price rule.threshold = true) :
    (evaluateRuleStep now pd rule).2 = false ∧
    (evaluateRuleStep now pd rule).1 = rule := by
  simp [evaluateRuleStep, hen, hsym, hbr, hf, hu]

/-- NEVER rule with a stale lastTriggered for the C5 witness. -/
def c5Rule : AlertRule :=
  { id := 1, symbol := "BTC/USD", priceFeedID := "", threshold := 1,
    direction := .geq, enabled := true, recipientEmail := "",
    lastTriggered := some 0, frequency := some { number := 0, unit := .never } }

/-- C5 witness: a large breach a long time after lastTriggered still yields
    no decision and leaves the NEVER rule untouched. -/
theorem c5_witness :
    (evaluateRuleStep (1000 * nanosPerHour) c1Price c5Rule).2 = false ∧
    (evaluateRuleStep (1000 * nanosPerHour) c1Price c5Rule).1 = c5Rule :=
  c5_never_suppression (1000 * nanosPerHour) c1Price c5Rule
    { number := 0, unit := .never } rfl rfl rfl rfl (by decide)

/- ------------------------------------------------------------------
   C9 — skipped rules are left unchanged.
   ------------------------------------------------------------------ -/

/-- C9: a rule that is disabled, or whose match key differs from the
    observed key, or whose comparator does not hold for the observed value,
    produces no decision and is left unchanged (every field, in particular
    lastTriggered and enabled) by one evaluation. -/
theorem c9_skip_frame (now : Int) (pd : PriceData) (rule : AlertRule)
    (h : rule.enabled = false ∨ rule.symbol ≠ pd.symbol ∨
      ¬ specComparatorHolds rule.direction priceEpsilon pd.price rule.threshold) :
    (evaluateRuleStep now pd rule).2 = false ∧
    (evaluateRuleStep now pd rule).1 = rule := by
  rcases h with hen | hsym | hspec
  · simp [evaluateRuleStep, hen]
  · cases hen : rule.enabled with
    | false => simp [evaluateRuleStep, hen]
    | true => simp [evaluateRuleStep, hen, hsym]
  · have hbr : directionBreach priceEpsilon rule.direction pd.price rule.threshold = false := by
      cases hb : directionBreach priceEpsilon rule.direction pd.price rule.threshold with
      | false => rfl
      | true => exact absurd ((directionBreach_iff_spec _ _ _ _).mp hb) hspec
    cases hen : rule.enabled with
    | false => simp [evaluateRuleStep, hen]
    | true =>
      by_cases hsym : rule.symbol = pd.symbol
      · simp [evaluateRuleStep, hen, hsym, hbr]
      · simp [evaluateRuleStep, hen, hsym]

/-- Non-breaching observation for the C9 witness (price below a >= 1
    threshold). -/
def c9PriceLow : PriceData := { symbol := "BTC/USD", price := 1 / 2 }

/-- C9 witness: a non-breaching evaluation of an enabled matching rule
    yields no decision and leaves the rule unchanged. -/
theorem c9_witness :
    (evaluateRuleStep 7 c9PriceLow c4Rule).2 = false ∧
    (evaluateRuleStep 7 c9PriceLow c4Rule).1 = c4Rule :=
  c9_skip_frame 7 c9PriceLow c4Rule (Or.inr (Or.inr (by
    norm_num [specComparatorHolds, c4Rule, c9PriceLow, priceEpsilon])))

/- ------------------------------------------------------------------
   C2 / C10 — ReplaceRules hot-reload carry-forward.
   ------------------------------------------------------------------ -/

/-- The old-rule maps never contain key 0: old rules with ID 0 are skipped
    when building the lookup. -/
theorem oldPriceById_zero (l : List AlertRule) : oldPriceById l 0 = none := by
  induction l with
  | nil => rfl
  | cons r rs ih => simp [oldPriceById, ih]

/-- The old-DeFi map never contains key 0. -/
theorem oldDefiById_zero (l : List DeFiAlertRule) : oldDefiById l 0 = none := by
  induction l with
  | nil => rfl
  | cons r rs ih => simp [oldDefiById, ih]

/-- The old-predict map never contains key 0. -/
theorem oldPredictById_zero (l : List PredictMarketAlertRule) :
    oldPredictById l 0 = none := by
  induction l with
  | nil => rfl
  | cons r rs ih => simp [oldPredictById, ih]

/-- C2: after ReplaceRules the live sets are positionwise exactly the new
    sequences, except that a new rule whose (nonzero) ID is found among the
    old rules of the same kind gets the old rule's lastTriggered; a new rule
    whose ID is not found — in particular every rule with ID 0, whatever old
    rules existed — is taken verbatim, so its lastTriggered stays whatever
    it arrived with (nil stays nil). -/
theorem c2_replace_rules (e : DecisionEngine) (price : List AlertRule)
    (defi : List DeFiAlertRule) (predict : List PredictMarketAlertRule) :
    ((replaceRules e price defi predict).rules.length = price.length ∧
      ∀ (i : Nat) (r : AlertRule), price[i]? = some r →
        ∃ r2, (replaceRules e price defi predict).rules[i]? = some r2 ∧
          (∀ o, oldPriceById e.rules r.id = some o →
            r2 = { r with lastTriggered := o.lastTriggered }) ∧
          (oldPriceById e.rules r.id = none → r2 = r) ∧
          (r.id = 0 → r2 = r)) ∧
    ((replaceRules e price defi predict).defiRules.length = defi.length ∧
      ∀ (i : Nat) (r : DeFiAlertRule), defi[i]? = some r →
        ∃ r2, (replaceRules e price defi predict).defiRules[i]? = some r2 ∧
          (∀ o, oldDefiById e.defiRules r.id = some o →
            r2 = { r with lastTriggered := o.lastTriggered }) ∧
          (oldDefiById e.defiRules r.id = none → r2 = r) ∧
          (r.id = 0 → r2 = r)) ∧
    ((replaceRules e price defi predict).predictMarketRules.length = predict.length ∧
      ∀ (i : Nat) (r : PredictMarketAlertRule), predict[i]? = some r →
        ∃ r2, (replaceRules e price defi predict).predictMarketRules[i]? = some r2 ∧
          (∀ o, oldPredictById e.predictMarketRules r.id = some o →
            r2 = { r with lastTriggered := o.lastTriggered }) ∧
          (oldPredictById e.predictMarketRules r.id = none → r2 = r) ∧
          (r.id = 0 → r2 = r)) := by
  refine ⟨⟨?_, ?_⟩, ⟨?_, ?_⟩, ?_, ?_⟩
  · simp [replaceRules, carryForwardPrice]
  · intro i r hr
    rcases ho : oldPriceById e.rules r.id with _ | o
    · refine ⟨r, ?_, ?_, ?_, ?_⟩
      · simp only [replaceRules, carryForwardPrice]
        rw [List.getElem?_map, hr]
        simp [ho]
      · intro o2 ho2
        cases ho2
      · intro _
        rfl
      · intro _
        rfl
    · refine ⟨{ r with lastTriggered := o.lastTriggered }, ?_, ?_, ?_, ?_⟩
      · simp only [replaceRules, carryForwardPrice]
        rw [List.getElem?_map, hr]
        simp [ho]
      · intro o2 ho2
        cases ho2
        rfl
      · intro hn
        cases hn
      · intro hz
        rw [hz, oldPriceById_zero] at ho
        cases ho
  · simp [replaceRules, carryForwardDefi]
  · intro i r hr
    rcases ho : oldDefiById e.defiRules r.id with _ | o
    · refine ⟨r, ?_, ?_, ?_, ?_⟩
      · simp only [replaceRules, carryForwardDefi]
        rw [List.getElem?_map, hr]
        simp [ho]
      · intro o2 ho2
        cases ho2
      · intro _
        rfl
      · intro _
        rfl
    · refine ⟨{ r with lastTriggered := o.lastTriggered }, ?_, ?_, ?_, ?_⟩
      · simp only [replaceRules, carryForwardDefi]
        rw [List.getElem?_map, hr]
        simp [ho]
      · intro o2 ho2
        cases ho2
        rfl
      · intro hn
        cases hn
      · intro hz
        rw [hz, oldDefiById_zero] at ho
        cases ho
  · simp [replaceRules, carryForwardPredict]
  · intro i r hr
    rcases ho : oldPredictById e.predictMarketRules r.id with _ | o
    · refine ⟨r, ?_, ?_, ?_, ?_⟩
      · simp only [replaceRules, carryForwardPredict]
        rw [List.getElem?_map, hr]
        simp [ho]
      · intro o2 ho2
        cases ho2
      · intro _
        rfl
      · intro _
        rfl
    · refine ⟨{ r with lastTriggered := o.lastTriggered }, ?_, ?_, ?_, ?_⟩
      · simp only [replaceRules, carryForwardPredict]
        rw [List.getElem?_map, hr]
        simp [ho]
      · intro o2 ho2
        cases ho2
        rfl
      · intro hn
        cases hn
      · intro hz
        rw [hz, oldPredictById_zero] at ho
        cases ho

/-- Old in-memory rule with persisted ID 7 and lastTriggered = T = 42. -/
def c2OldRule : AlertRule :=
  { id := 7, symbol := "BTC/USD", priceFeedID := "", threshold := 1,
    direction := .geq, enabled := true, recipientEmail := "",
    lastTriggered := some 42, frequency := none }

/-- Old in-memory rule with ID 0 and a lastTriggered, content-identical to
    the incoming c2New0 apart from lastTriggered. -/
def c2OldZero : AlertRule :=
  { id := 0, symbol := "ETH/USD", priceFeedID := "", threshold := 2,
    direction := .ltd, enabled := true, recipientEmail := "",
    lastTriggered := some 99, frequency := none }

/-- Engine state before the hot reload. -/
def c2Engine : DecisionEngine :=
  { rules := [c2OldRule, c2OldZero], defiRules := [], predictMarketRules := [] }

/-- Incoming rule carrying persisted ID 7 with lastTriggered nil. -/
def c2New7 : AlertRule :=
  { id := 7, symbol := "BTC/USD", priceFeedID := "", threshold := 1,
    direction := .geq, enabled := true, recipientEmail := "",
    lastTriggered := none, frequency := none }

/-- Incoming rule with ID 0, same shape as the old ID-0 rule, lastTriggered
    nil. -/
def c2New0 : AlertRule :=
  { id := 0, symbol := "ETH/USD", priceFeedID := "", threshold := 2,
    direction := .ltd, enabled := true, recipientEmail := "",
    lastTriggered := none, frequency := none }

/-- The old map lookup at the reloaded ID 7 finds the old rule. -/
theorem c2_lookup7 : oldPriceById c2Engine.rules 7 = some c2OldRule := by
  simp [c2Engine, oldPriceById, c2OldRule, c2OldZero]

/-- C2 witness: reloading with a new ID-7 rule preserves lastTriggered = 42
    on the new instance, and the new ID-0 rule starts with lastTriggered nil
    even though a same-shaped old rule with a lastTriggered existed. -/
theorem c2_witness :
    ((replaceRules c2Engine [c2New7, c2New0] [] []).rules[0]?).map
        AlertRule.lastTriggered = some (some 42) ∧
    ((replaceRules c2Engine [c2New7, c2New0] [] []).rules[1]?).map
        AlertRule.lastTriggered = some none := by
  obtain ⟨-, h⟩ := (c2_replace_rules c2Engine [c2New7, c2New0] [] []).1
  constructor
  · obtain ⟨r2, hr2, hcarry, -, -⟩ := h 0 c2New7 rfl
    rw [hr2, hcarry c2OldRule c2_lookup7]
    rfl
  · obtain ⟨r2, hr2, -, -, hzero⟩ := h 1 c2New0 rfl
    rw [hr2, hzero rfl]
    rfl

/-- C10: whenever a new rule's ID is found in the old map (only nonzero IDs
    are ever inserted there), the old in-memory lastTriggered overwrites the
    new rule's lastTriggered unconditionally — in particular a non-nil
    lastTriggered arriving on the new rule is discarded even when the old
    value is nil. -/
theorem c10_carry_overwrites (e : DecisionEngine) (price : List AlertRule)
    (defi : List DeFiAlertRule) (predict : List PredictMarketAlertRule)
    (i : Nat) (r o : AlertRule) (hr : price[i]? = some r)
    (ho : oldPriceById e.rules r.id = some o) :
    ∃ r2, (replaceRules e price defi predict).rules[i]? = some r2 ∧
      r2.lastTriggered = o.lastTriggered := by
  refine ⟨{ r with lastTriggered := o.lastTriggered }, ?_, rfl⟩
  simp only [replaceRules, carryForwardPrice]
  rw [List.getElem?_map, hr]
  simp [ho]

/-- Old rule with ID 7 whose in-memory lastTriggered is nil. -/
def c10OldRule : AlertRule :=
  { id := 7, symbol := "BTC/USD", priceFeedID := "", threshold := 1,
    direction := .geq, enabled := true, recipientEmail := "",
    lastTriggered := none, frequency := none }

/-- Incoming rule with ID 7 carrying a non-nil lastTriggered from its
    source. -/
def c10NewRule : AlertRule :=
  { id := 7, symbol := "BTC/USD", priceFeedID := "", threshold := 1,
    direction := .geq, enabled := true, recipientEmail := "",
    lastTriggered := some 99, frequency := none }

/-- Engine state before the C10 reload. -/
def c10Engine : DecisionEngine :=
  { rules := [c10OldRule], defiRules := [], predictMarketRules := [] }

/-- C10 witness: the incoming non-nil lastTriggered = 99 is discarded in
    favor of the old in-memory nil. -/
theorem c10_witness :
    ∃ r2, (replaceRules c10Engine [c10NewRule] [] []).rules[0]? = some r2 ∧
      r2.lastTriggered = none :=
  c10_carry_overwrites c10Engine [c10NewRule] [] [] 0 c10NewRule c10OldRule
    rfl (by simp [c10Engine, oldPriceById, c10OldRule, c10NewRule])

/- ------------------------------------------------------------------
   C6 — commit-regardless-of-send, no-commit-on-fetch-error.
   ------------------------------------------------------------------ -/

/-- C6: in the delivery worker's consume step, every fetched message is
    committed regardless of the send outcomes (including a malformed
    envelope, which is acknowledged and skipped: the handler returns nil),
    while a failed fetch commits nothing, makes the handler return the
    error, and that error — and only that — triggers the backoff/reconnect
    path of consumeWithBackoff. -/
theorem c6_commit_policy (fetched : Option (Option TokenAlertEvent))
    (emailOk tgOk tgEnabled : Bool) (b : Int) :
    ((consumeTokenStep fetched emailOk tgOk tgEnabled).committed = fetched.isSome) ∧
    ((consumeTokenStep fetched emailOk tgOk tgEnabled).handlerErr = fetched.isNone) ∧
    ((consumeLoopReact b (consumeTokenStep fetched emailOk tgOk tgEnabled).handlerErr).1
      = fetched.isNone) := by
  rcases fetched with _ | ev
  · simp [consumeTokenStep, consumeLoopReact]
  · rcases ev with _ | e
    · simp [consumeTokenStep, consumeLoopReact]
    · simp [consumeTokenStep, consumeLoopReact]

/- ------------------------------------------------------------------
   C7 — offset bootstrap commits earliest iff no committed offset.
   ------------------------------------------------------------------ -/

/-- C7: per (consumer-group, topic) pair, when the offset fetch returns a
    partition entry without error and the earliest offset is readable, the
    bootstrap commits that earliest offset iff the reported committed
    offset is negative (no prior commit); when a committed offset already
    exists (non-negative), no commit is issued whatever the other broker
    outcomes are. -/
theorem c7_offset_bootstrap (p : OffsetFetchPartition) (first : Int)
    (hperr : p.hasError = false) :
    (initOffsetStep (some (some p)) (some first) = some first ↔
      p.committedOffset < 0) ∧
    (∀ earliest, 0 ≤ p.committedOffset →
      initOffsetStep (some (some p)) earliest = none) := by
  constructor
  · constructor
    · intro h
      by_contra hge
      push_neg at hge
      simp [initOffsetStep, hperr, hge] at h
    · intro hlt
      simp [initOffsetStep, hperr, not_le.mpr hlt]
  · intro earliest hge
    simp [initOffsetStep, hge]

/-- Fresh consumer group: committed offset reported as -1. -/
def c7Fresh : OffsetFetchPartition := { hasError := false, committedOffset := -1 }

/-- Group with an existing committed offset 5. -/
def c7Existing : OffsetFetchPartition := { hasError := false, committedOffset := 5 }

/-- C7 witness: the fresh group gets the earliest offset committed; the
    already-initialized group gets no commit. -/
theorem c7_witness :
    initOffsetStep (some (some c7Fresh)) (some 0) = some 0 ∧
    initOffsetStep (some (some c7Existing)) (some 0) = none :=
  ⟨(c7_offset_bootstrap c7Fresh 0 rfl).1.mpr (by decide),
    (c7_offset_bootstrap c7Existing 0 rfl).2 (some 0) (by decide)⟩

/- ------------------------------------------------------------------
   C8 — coordinator-poll backoff cap.
   ------------------------------------------------------------------ -/

/-- C8 (counterexample): the sixth wait of the coordinator-readiness poll
    is 32 seconds — it exceeds the claimed 30-second cap and differs from
    the claimed min-capped doubling min(2^n s, 30 s). -/
theorem c8_backoff_counterexample :
    coordinatorBackoff 5 = 32 * nanosPerSecond ∧
    30 * nanosPerSecond < coordinatorBackoff 5 ∧
    coordinatorBackoff 5 ≠ min ((2 : Int) ^ 5 * nanosPerSecond) (30 * nanosPerSecond) := by
  refine ⟨by decide, by decide, by decide⟩

/-- C8 (amended): the coordinator-readiness waits start at 1 second and
    double while strictly below 30 seconds, freezing at the first value at
    or above it: the n-th wait equals min(2^n seconds, 32 seconds) — the
    effective cap is 32 seconds, not 30. -/
theorem c8_backoff_amended (n : Nat) :
    coordinatorBackoff n = min ((2 : Int) ^ n * nanosPerSecond) (32 * nanosPerSecond) := by
  induction n with
  | zero => norm_num [coordinatorBackoff, nanosPerSecond]
  | succ n ih =>
    have hS : (0 : Int) < nanosPerSecond := by norm_num [nanosPerSecond]
    show (if coordinatorBackoff n < 30 * nanosPerSecond then coordinatorBackoff n * 2
      else coordinatorBackoff n) = _
    rcases le_or_lt n 4 with hn | hn
    · have h2 : (2 : Int) ^ n ≤ 16 := by interval_cases n <;> norm_num
      have hmin1 : min ((2 : Int) ^ n * nanosPerSecond) (32 * nanosPerSecond)
          = 2 ^ n * nanosPerSecond := min_eq_left (by nlinarith)
      have hmin2 : min ((2 : Int) ^ (n + 1) * nanosPerSecond) (32 * nanosPerSecond)
          = 2 ^ (n + 1) * nanosPerSecond := by
        refine min_eq_left ?_
        rw [pow_succ]
        nlinarith
      rw [ih, hmin1, if_pos (by nlinarith), hmin2, pow_succ]
      ring
    · have h2 : (32 : Int) ≤ 2 ^ n := by
        calc (32 : Int) = 2 ^ 5 := by norm_num
        _ ≤ 2 ^ n := pow_le_pow_right₀ (by norm_num) hn
      have hmin1 : min ((2 : Int) ^ n * nanosPerSecond) (32 * nanosPerSecond)
          = 32 * nanosPerSecond := min_eq_right (by nlinarith)
      have hmin2 : min ((2 : Int) ^ (n + 1) * nanosPerSecond) (32 * nanosPerSecond)
          = 32 * nanosPerSecond := by
        refine min_eq_right ?_
        rw [pow_succ]
        nlinarith
      rw [ih, hmin1, if_neg (by norm_num [nanosPerSecond]), hmin2]

end CryptoAlert
